import Mathlib

/-!
# Verification of the Mizo dictionary translation server

A shallow embedding of `translation_server.py`: the translation client
(`translate_with_google`), the cache-augmented orchestrator (`translate`),
and the HTTP endpoint handlers (`api_translate_mizo`,
`api_translate_english`, `api_batch_translate`, `api_status`,
`api_clear_cache`).

Modelling conventions:
- The external provider is an oracle `Provider` mapping the request
  `(text, source, target)` to an `HttpOutcome`, which abstracts the HTTP
  response seen by `translate_with_google`.
- The two Python cache dictionaries `CACHE['en-to-mizo']` and
  `CACHE['mizo-to-en']` become two association lists in a `Cache` record.
  Insertion replaces an existing binding, as dict assignment does.
- Python string `.lower()` and `.strip()` are modelled by `pyLower` and
  `pyStrip`, structural recursions over the character list (Python `lower`
  on the ASCII inputs of interest agrees with `Char.toLower`).
- An uncaught Python exception escaping a handler (the `KeyError` from
  `CACHE[direction]` with an unknown direction) is modelled by `Except`:
  handlers return `Except Unit (response × Cache × Nat)` where the `Nat`
  counts outbound network calls made while handling the request.
- Python truthiness of a string result (`if result:` / `if translation:`)
  is the test that the string is nonempty.
-/

namespace TranslationServer

/-- Outcome of the HTTP POST to the Google endpoint, as observed by
`translate_with_google`: a 200 response whose JSON has
`data.translations` (with the list of `translatedText` values), a 200
response lacking that structure, a non-200 status, or a raised
transport-level exception. -/
inductive HttpOutcome where
  | success (translations : List String)
  | badPayload
  | httpError (code : Nat)
  | transportFailure
deriving DecidableEq

/-- The external provider as an oracle: text, source language, target
language to HTTP outcome. -/
def Provider : Type := String → String → String → HttpOutcome

/-- Embedding of `translate_with_google(text, source_lang, target_lang)`:
on a 200 response with the expected structure it extracts
`result['data']['translations'][0]['translatedText']` (an empty list, like
any other malformed shape, ends as `None` via the catch-all `except`);
every failure path returns `None`. -/
def translate_with_google (prov : Provider) (text source_lang target_lang : String) :
    Option String :=
  match prov text source_lang target_lang with
  | .success translations => translations.head?
  | .badPayload => none
  | .httpError _ => none
  | .transportFailure => none

/-- The two directional caches, `CACHE['en-to-mizo']` and
`CACHE['mizo-to-en']`, as association lists from normalized key to
translation. -/
structure Cache where
  enToMizo : List (String × String)
  mizoToEn : List (String × String)
deriving DecidableEq

/-- Python `str.lower()`: lower-case every character. -/
def pyLower (s : String) : String :=
  ⟨s.data.map Char.toLower⟩

/-- Python `str.strip()`: drop leading and trailing whitespace. -/
def pyStrip (s : String) : String :=
  ⟨((s.data.dropWhile Char.isWhitespace).reverse.dropWhile Char.isWhitespace).reverse⟩

/-- The initial state of `CACHE`: both directions empty. -/
def emptyCache : Cache := ⟨[], []⟩

/-- First-match lookup in an association list (Python `d[k]` / `k in d`). -/
def lookupKey (m : List (String × String)) (k : String) : Option String :=
  match m with
  | [] => none
  | (k2, v) :: t => if k2 = k then some v else lookupKey t k

/-- Python dict assignment `d[k] = v`: replace the binding of `k` if
present, otherwise append it. -/
def assocInsert (m : List (String × String)) (k v : String) : List (String × String) :=
  match m with
  | [] => [(k, v)]
  | (k2, v2) :: t => if k2 = k then (k, v) :: t else (k2, v2) :: assocInsert t k v

/-- `CACHE[direction]`: `some` the selected map for the two keys the dict
holds, `none` for the `KeyError` any other string raises. -/
def dirMap? (c : Cache) (direction : String) : Option (List (String × String)) :=
  if direction = "en-to-mizo" then some c.enToMizo
  else if direction = "mizo-to-en" then some c.mizoToEn
  else none

/-- Write back the selected directional map (the in-place mutation
`CACHE[direction][key] = value` seen functionally). Unreachable for an
invalid direction, where it is the identity. -/
def setDirMap (c : Cache) (direction : String) (m : List (String × String)) : Cache :=
  if direction = "en-to-mizo" then { c with enToMizo := m }
  else if direction = "mizo-to-en" then { c with mizoToEn := m }
  else c

/-- Lookup through `CACHE[direction]`, collapsing the `KeyError` case to
`none`; used to state cache-content properties. -/
def lookupDir (c : Cache) (direction k : String) : Option String :=
  match dirMap? c direction with
  | some m => lookupKey m k
  | none => none

/-- The source language code `LANGUAGE_CODES` resolution of `translate`:
`en-to-mizo` gives `en`, any other direction reaching this point gives
`lus`. -/
def sourceOf (direction : String) : String :=
  if direction = "en-to-mizo" then "en" else "lus"

/-- The target language code resolution of `translate`. -/
def targetOf (direction : String) : String :=
  if direction = "en-to-mizo" then "lus" else "en"

/-- `CACHE[direction][key] = value` on a valid direction; identity when
`direction` is not a key of `CACHE` (unreachable in `translate`). -/
def insertDir (c : Cache) (direction k v : String) : Cache :=
  match dirMap? c direction with
  | some m => setDirMap c direction (assocInsert m k v)
  | none => c

/-- Result of one `translate(text, direction)` call: the returned value
(`None` becomes `none`), the cache state after the call, and the number of
outbound network calls it made (0 or 1). -/
structure TranslateOutcome where
  result : Option String
  cache : Cache
  networkCalls : Nat
deriving DecidableEq

/-- Embedding of `translate(text, direction)`: key is `text.lower()`;
a hit in `CACHE[direction]` returns the stored value with no network
call; a miss resolves the language codes (`en-to-mizo` gives en→lus,
anything else gives lus→en), calls the client once, and caches the
result only when it is truthy. An unknown `direction` raises `KeyError`
at `CACHE[direction]`, modelled as `.error ()`. -/
def translate (prov : Provider) (text direction : String) (c : Cache) :
    Except Unit TranslateOutcome :=
  match dirMap? c direction with
  | none => .error ()
  | some m =>
    match lookupKey m (pyLower text) with
    | some v => .ok ⟨some v, c, 0⟩
    | none =>
      match translate_with_google prov text (sourceOf direction) (targetOf direction) with
      | some r =>
        if r = "" then .ok ⟨some r, c, 1⟩
        else .ok ⟨some r, setDirMap c direction (assocInsert m (pyLower text) r), 1⟩
      | none => .ok ⟨none, c, 1⟩

/-- JSON body and status of a single-translate endpoint response. The
`word_out` field is the echoed input (`mizo` key of `/api/translate-mizo`,
`english` key of `/api/translate-english`); `translation` is the other
language's key. Absent JSON keys are `none`. -/
structure SingleResp where
  status : Nat
  success : Bool
  error : Option String
  word_out : Option String
  translation : Option String
  direction : Option String
  cached : Option Bool
deriving DecidableEq

/-- The 400 response shared by both single-translate endpoints. -/
def noWordResp : SingleResp :=
  { status := 400, success := false, error := some "No word provided",
    word_out := none, translation := none, direction := none, cached := none }

/-- The 500 response shared by both single-translate endpoints. -/
def failedResp : SingleResp :=
  { status := 500, success := false, error := some "Translation failed",
    word_out := none, translation := none, direction := none, cached := none }

/-- Embedding of `api_translate_mizo`: strips `word` (missing key gives
`''`), answers 400 when empty, calls `translate(word, 'mizo-to-en')`, and
on a truthy translation answers 200 with `cached` computed as
`word.lower() in CACHE['mizo-to-en']` evaluated AFTER the translate call,
on the updated cache. -/
def api_translate_mizo (prov : Provider) (word? : Option String) (c : Cache) :
    Except Unit (SingleResp × Cache × Nat) :=
  let word := pyStrip (word?.getD "")
  if word = "" then .ok (noWordResp, c, 0)
  else
    match translate prov word "mizo-to-en" c with
    | .error e => .error e
    | .ok tr =>
      match tr.result with
      | some t =>
        if t = "" then .ok (failedResp, tr.cache, tr.networkCalls)
        else
          .ok ({ status := 200, success := true, error := none,
                 word_out := some word, translation := some t,
                 direction := some "mizo-to-english",
                 cached := some (lookupKey tr.cache.mizoToEn (pyLower word)).isSome },
               tr.cache, tr.networkCalls)
      | none => .ok (failedResp, tr.cache, tr.networkCalls)

/-- Embedding of `api_translate_english`: same shape as
`api_translate_mizo` with direction `en-to-mizo`, echoing `english` and
answering `mizo`; `cached` is likewise evaluated after the translate
call. -/
def api_translate_english (prov : Provider) (word? : Option String) (c : Cache) :
    Except Unit (SingleResp × Cache × Nat) :=
  let word := pyStrip (word?.getD "")
  if word = "" then .ok (noWordResp, c, 0)
  else
    match translate prov word "en-to-mizo" c with
    | .error e => .error e
    | .ok tr =>
      match tr.result with
      | some t =>
        if t = "" then .ok (failedResp, tr.cache, tr.networkCalls)
        else
          .ok ({ status := 200, success := true, error := none,
                 word_out := some word, translation := some t,
                 direction := some "english-to-mizo",
                 cached := some (lookupKey tr.cache.enToMizo (pyLower word)).isSome },
               tr.cache, tr.networkCalls)
      | none => .ok (failedResp, tr.cache, tr.networkCalls)

/-- One element of the batch response's `translations` array. -/
structure BatchItem where
  input : String
  output : String
  direction : String
deriving DecidableEq

/-- JSON body and status of a `/api/batch-translate` response; the 400
body has neither `translations` nor `count`. -/
structure BatchResp where
  status : Nat
  success : Bool
  translations : Option (List BatchItem)
  count : Option Nat
deriving DecidableEq

/-- The `for word in words[:20]` loop body of `api_batch_translate`:
translates each word in order, threading the cache, appending an item
only when the translation is truthy, and summing network calls. A raised
`KeyError` aborts the whole loop. -/
def batchLoop (prov : Provider) (direction : String) (words : List String) (c : Cache) :
    Except Unit (List BatchItem × Cache × Nat) :=
  match words with
  | [] => .ok ([], c, 0)
  | w :: ws =>
    match translate prov w direction c with
    | .error e => .error e
    | .ok tr =>
      match batchLoop prov direction ws tr.cache with
      | .error e => .error e
      | .ok (rest, c2, n) =>
        match tr.result with
        | some t =>
          if t = "" then .ok (rest, c2, tr.networkCalls + n)
          else .ok (⟨w, t, direction⟩ :: rest, c2, tr.networkCalls + n)
        | none => .ok (rest, c2, tr.networkCalls + n)

/-- Embedding of `api_batch_translate`: `words` defaults to `[]`,
`direction` to `'mizo-to-en'`; an empty list is rejected with 400;
otherwise the first 20 words are looped over and the collected items
returned with `count = len(results)` and `success: true`. An unknown
direction's `KeyError` escapes the handler (`.error`). -/
def api_batch_translate (prov : Provider) (words? : Option (List String))
    (direction? : Option String) (c : Cache) :
    Except Unit (BatchResp × Cache × Nat) :=
  let words := words?.getD []
  let direction := direction?.getD "mizo-to-en"
  if words = [] then
    .ok ({ status := 400, success := false, translations := none, count := none }, c, 0)
  else
    match batchLoop prov direction (words.take 20) c with
    | .error e => .error e
    | .ok (results, c2, n) =>
      .ok ({ status := 200, success := true, translations := some results,
             count := some results.length }, c2, n)

/-- The fields of the `/api/status` body the spec's claims mention.
`model_loaded` is the literal `True`; `api_key_configured` is
`bool(GOOGLE_API_KEY)`, which is `True` in any running process since
startup exits when the key is absent. -/
structure StatusResp where
  model_loaded : Bool
  cache_size_mizo_to_english : Nat
  cache_size_english_to_mizo : Nat
  api_key_configured : Bool
  status : String
deriving DecidableEq

/-- Embedding of `api_status`: reports `len` of each directional cache. -/
def api_status (c : Cache) : StatusResp :=
  { model_loaded := true,
    cache_size_mizo_to_english := c.mizoToEn.length,
    cache_size_english_to_mizo := c.enToMizo.length,
    api_key_configured := true,
    status := "online" }

/-- Body of the `/api/clear-cache` response. -/
structure ClearResp where
  message : String
  success : Bool
deriving DecidableEq

/-- Embedding of `api_clear_cache`: `.clear()` on both directional dicts,
leaving the empty cache, and a fixed success body. -/
def api_clear_cache (_c : Cache) : ClearResp × Cache :=
  (⟨"Cache cleared", true⟩, emptyCache)

/-- Run a sequence of `translate` calls (text, direction pairs),
threading the cache; used to speak about "every later call" within one
process lifetime. A call whose `KeyError` aborts its own request leaves
the cache untouched and later requests proceed. -/
def runTranslations (prov : Provider) (ops : List (String × String)) (c : Cache) : Cache :=
  match ops with
  | [] => c
  | (t, d) :: rest =>
    match translate prov t d c with
    | .ok tr => runTranslations prov rest tr.cache
    | .error _ => runTranslations prov rest c

/-- The two strings that are keys of `CACHE`. -/
def validDirection (d : String) : Prop :=
  d = "en-to-mizo" ∨ d = "mizo-to-en"

instance (d : String) : Decidable (validDirection d) := by
  unfold validDirection
  infer_instance

/-- Classifier of the provider outcomes the claims call a failed provider
call: a non-200 status, a transport exception, or a malformed 200 payload
(missing `data.translations`, or a translation list with no first
element). -/
def providerCallFails : HttpOutcome → Bool
  | .success translations => translations.isEmpty
  | .badPayload => true
  | .httpError _ => true
  | .transportFailure => true

/-- A provider answering every request with a 200 response carrying the
given translation list. -/
def constProvider (translations : List String) : Provider :=
  fun _ _ _ => .success translations

/-- A provider answering every request with a 403 status. -/
def failProvider : Provider :=
  fun _ _ _ => .httpError 403

/-- A provider failing exactly on the texts in `bad`, answering `out` on
all other texts. -/
def partialProvider (bad : List String) (out : String) : Provider :=
  fun text _ _ => if text ∈ bad then .httpError 500 else .success [out]

/-- The claim's notion of "the items that succeeded" in a batch request:
walking the processed words in order with the cache threaded exactly as
the loop threads it, a word succeeds when the orchestrator returns a
truthy result for it, and then contributes one item carrying that word
and its translation. Failed words contribute nothing. (The `.error` case
is the `KeyError` aborting the whole request; the successes of an aborted
request are the ones collected before it, none.) The C6 theorem proves
the endpoint's `translations` array is exactly this list. -/
def successfulItems (prov : Provider) (d : String) (words : List String) (c : Cache) :
    List BatchItem :=
  match words with
  | [] => []
  | w :: ws =>
    match translate prov w d c with
    | .error _ => []
    | .ok tr =>
      match tr.result with
      | some t =>
        if t = "" then successfulItems prov d ws tr.cache
        else ⟨w, t, d⟩ :: successfulItems prov d ws tr.cache
      | none => successfulItems prov d ws tr.cache

/-! ## Helper lemmas -/

/-- Inserting a binding makes it the one found at its key. -/
theorem lookupKey_assocInsert_self (m : List (String × String)) (k v : String) :
    lookupKey (assocInsert m k v) k = some v := by
  induction m with
  | nil => simp [assocInsert, lookupKey]
  | cons p t ih =>
    obtain ⟨k2, v2⟩ := p
    by_cases h : k2 = k <;> simp [assocInsert, lookupKey, h, ih]

/-- Inserting a binding leaves lookups at other keys unchanged. -/
theorem lookupKey_assocInsert_ne (m : List (String × String)) (k v k2 : String)
    (h : k2 ≠ k) : lookupKey (assocInsert m k v) k2 = lookupKey m k2 := by
  have h2 : ¬(k = k2) := fun hh => h hh.symm
  induction m with
  | nil => simp [assocInsert, lookupKey, h2]
  | cons p t ih =>
    obtain ⟨k3, v3⟩ := p
    by_cases h3 : k3 = k
    · subst h3
      simp [assocInsert, lookupKey, h2]
    · simp [assocInsert, lookupKey, h3, ih]

/-- A direction accepted by `CACHE[direction]` is one of the two keys. -/
theorem validDirection_of_dirMap (c : Cache) (d : String)
    (m : List (String × String)) (hm : dirMap? c d = some m) : validDirection d := by
  by_cases h1 : d = "en-to-mizo"
  · exact Or.inl h1
  · by_cases h2 : d = "mizo-to-en"
    · exact Or.inr h2
    · simp [dirMap?, h1, h2] at hm

/-- On a valid direction, an inserted binding is found back. -/
theorem lookupDir_insertDir_self (c : Cache) (d k v : String)
    (hd : validDirection d) : lookupDir (insertDir c d k v) d k = some v := by
  rcases hd with rfl | rfl <;>
    simp [insertDir, dirMap?, setDirMap, lookupDir, lookupKey_assocInsert_self]

/-- `insertDir` affects no (direction, key) slot other than its own. -/
theorem lookupDir_insertDir_other (c : Cache) (d k v d2 k2 : String)
    (h : ¬(d2 = d ∧ k2 = k)) :
    lookupDir (insertDir c d k v) d2 k2 = lookupDir c d2 k2 := by
  by_cases h1 : d = "en-to-mizo"
  · subst h1
    by_cases h2 : d2 = "en-to-mizo"
    · subst h2
      have hk : k2 ≠ k := fun hh => h ⟨rfl, hh⟩
      simp [insertDir, dirMap?, setDirMap, lookupDir,
        lookupKey_assocInsert_ne _ _ _ _ hk]
    · simp [insertDir, dirMap?, setDirMap, lookupDir, h2]
  · by_cases h2 : d = "mizo-to-en"
    · subst h2
      by_cases h3 : d2 = "mizo-to-en"
      · subst h3
        have hk : k2 ≠ k := fun hh => h ⟨rfl, hh⟩
        simp [insertDir, dirMap?, setDirMap, lookupDir, h1,
          lookupKey_assocInsert_ne _ _ _ _ hk]
      · simp [insertDir, dirMap?, setDirMap, lookupDir, h1, h3]
    · simp [insertDir, dirMap?, h1, h2]

/-- A `translate` call on a valid direction whose normalized key is
cached answers the cached value, changes nothing, and makes no network
call. -/
theorem translate_cache_hit (prov : Provider) (t d : String) (c : Cache) (v : String)
    (hd : validDirection d) (h : lookupDir c d (pyLower t) = some v) :
    translate prov t d c = .ok ⟨some v, c, 0⟩ := by
  rcases hd with rfl | rfl <;>
  · simp [lookupDir, dirMap?] at h
    simp [translate, dirMap?, h]

/-- A `translate` call on a valid direction whose normalized key is
uncached and whose provider call fails returns `none`, changes nothing,
and makes one network call. -/
theorem translate_miss_failure (prov : Provider) (t d : String) (c : Cache)
    (hd : validDirection d) (hmiss : lookupDir c d (pyLower t) = none)
    (hprov : translate_with_google prov t (sourceOf d) (targetOf d) = none) :
    translate prov t d c = .ok ⟨none, c, 1⟩ := by
  rcases hd with rfl | rfl <;>
  · simp [lookupDir, dirMap?] at hmiss
    simp [sourceOf, targetOf] at hprov
    simp [translate, dirMap?, hmiss, sourceOf, targetOf, hprov]

/-- A `translate` call on a valid direction whose normalized key is
uncached and whose provider call yields a truthy string stores it under
the lower-cased key and makes one network call. -/
theorem translate_miss_fresh (prov : Provider) (t d : String) (c : Cache) (r : String)
    (hd : validDirection d) (hmiss : lookupDir c d (pyLower t) = none)
    (hprov : translate_with_google prov t (sourceOf d) (targetOf d) = some r)
    (hr : r ≠ "") :
    translate prov t d c = .ok ⟨some r, insertDir c d (pyLower t) r, 1⟩ := by
  rcases hd with rfl | rfl <;>
  · simp [lookupDir, dirMap?] at hmiss
    simp [sourceOf, targetOf] at hprov
    simp [translate, dirMap?, hmiss, sourceOf, targetOf, hprov, hr, insertDir, setDirMap]

/-- A failing provider outcome makes `translate_with_google` return the
absence value. -/
theorem twg_none_of_fails (prov : Provider) (t s g : String)
    (h : providerCallFails (prov t s g) = true) :
    translate_with_google prov t s g = none := by
  unfold translate_with_google
  cases hp : prov t s g with
  | success ts =>
    rw [hp] at h
    simp [providerCallFails, List.isEmpty_iff] at h
    subst h
    rfl
  | badPayload => rfl
  | httpError code => rfl
  | transportFailure => rfl

/-- Inversion: a `translate` call that returned a truthy result leaves
that result cached under the lower-cased key, and its direction is
valid. -/
theorem translate_ok_truthy_cached (prov : Provider) (t d : String) (c : Cache)
    (tr : TranslateOutcome) (r : String)
    (htr : translate prov t d c = .ok tr) (hres : tr.result = some r) (hr : r ≠ "") :
    validDirection d ∧ lookupDir tr.cache d (pyLower t) = some r := by
  unfold translate at htr
  split at htr
  · exact absurd htr (by simp)
  next m hm =>
    have hd : validDirection d := validDirection_of_dirMap c d m hm
    refine ⟨hd, ?_⟩
    split at htr
    next v hk =>
      injection htr with htr
      subst htr
      simp only at hres
      injection hres with hres
      subst hres
      simpa [lookupDir, hm] using hk
    next hk =>
      split at htr
      next r2 hp =>
        split at htr
        next hre =>
          injection htr with htr
          subst htr
          simp only at hres
          injection hres with hres
          exact absurd (hres.symm.trans hre) hr
        next hre =>
          injection htr with htr
          subst htr
          simp only at hres
          injection hres with hres
          subst hres
          have hins : setDirMap c d (assocInsert m (pyLower t) r2) =
              insertDir c d (pyLower t) r2 := by
            simp [insertDir, hm]
          simp only [hins]
          exact lookupDir_insertDir_self c d (pyLower t) r2 hd
      next hp =>
        injection htr with htr
        subst htr
        simp at hres

/-- A `translate` call never removes or changes an existing cache
entry. -/
theorem translate_preserves (prov : Provider) (t d : String) (c : Cache)
    (tr : TranslateOutcome) (d2 k v : String)
    (htr : translate prov t d c = .ok tr)
    (h : lookupDir c d2 k = some v) :
    lookupDir tr.cache d2 k = some v := by
  unfold translate at htr
  split at htr
  · exact absurd htr (by simp)
  next m hm =>
    split at htr
    next v2 hk =>
      injection htr with htr
      subst htr
      exact h
    next hk =>
      split at htr
      next r2 hp =>
        split at htr
        next hre =>
          injection htr with htr
          subst htr
          exact h
        next hre =>
          injection htr with htr
          subst htr
          have hins : setDirMap c d (assocInsert m (pyLower t) r2) =
              insertDir c d (pyLower t) r2 := by
            simp [insertDir, hm]
          simp only [hins]
          by_cases hdk : d2 = d ∧ k = pyLower t
          · obtain ⟨rfl, rfl⟩ := hdk
            have hh : lookupKey m (pyLower t) = some v := by
              simpa [lookupDir, hm] using h
            rw [hh] at hk
            exact absurd hk (by simp)
          · rw [lookupDir_insertDir_other c d (pyLower t) r2 d2 k hdk]
            exact h
      next hp =>
        injection htr with htr
        subst htr
        exact h

/-- No sequence of later `translate` calls removes or changes an existing
cache entry. -/
theorem runTranslations_preserves (prov : Provider) (ops : List (String × String))
    (c : Cache) (d k v : String) (h : lookupDir c d k = some v) :
    lookupDir (runTranslations prov ops c) d k = some v := by
  induction ops generalizing c with
  | nil => exact h
  | cons op rest ih =>
    obtain ⟨t, d2⟩ := op
    unfold runTranslations
    cases htr : translate prov t d2 c with
    | ok tr => exact ih tr.cache (translate_preserves prov t d2 c tr d k v htr h)
    | error e => exact ih c h

/-- A `translate` call on a valid direction whose normalized key is
uncached and whose provider call yields the empty string returns it
uncached (Python falsy), with one network call. -/
theorem translate_miss_empty (prov : Provider) (t d : String) (c : Cache)
    (hd : validDirection d) (hmiss : lookupDir c d (pyLower t) = none)
    (hprov : translate_with_google prov t (sourceOf d) (targetOf d) = some "") :
    translate prov t d c = .ok ⟨some "", c, 1⟩ := by
  rcases hd with rfl | rfl <;>
  · simp [lookupDir, dirMap?] at hmiss
    simp [sourceOf, targetOf] at hprov
    simp [translate, dirMap?, hmiss, sourceOf, targetOf, hprov]

/-- On a valid direction, `translate` never raises: every branch returns
a value. -/
theorem translate_ok_of_valid (prov : Provider) (t d : String) (c : Cache)
    (hd : validDirection d) : ∃ tr, translate prov t d c = .ok tr := by
  cases hcache : lookupDir c d (pyLower t) with
  | some v => exact ⟨_, translate_cache_hit prov t d c v hd hcache⟩
  | none =>
    cases hp : translate_with_google prov t (sourceOf d) (targetOf d) with
    | none => exact ⟨_, translate_miss_failure prov t d c hd hcache hp⟩
    | some r =>
      by_cases hr : r = ""
      · subst hr
        exact ⟨_, translate_miss_empty prov t d c hd hcache hp⟩
      · exact ⟨_, translate_miss_fresh prov t d c r hd hcache hp hr⟩

/-- On a valid direction, the batch loop never raises and its result list
is exactly the items of the words that succeeded, in order. -/
theorem batchLoop_eq_successfulItems (prov : Provider) (d : String)
    (hd : validDirection d) (ws : List String) (c : Cache) :
    ∃ c2 n, batchLoop prov d ws c = .ok (successfulItems prov d ws c, c2, n) := by
  induction ws generalizing c with
  | nil => exact ⟨c, 0, rfl⟩
  | cons w rest ih =>
    obtain ⟨tr, htr⟩ := translate_ok_of_valid prov w d c hd
    obtain ⟨c2, n, hloop⟩ := ih tr.cache
    refine ⟨c2, tr.networkCalls + n, ?_⟩
    cases hres : tr.result with
    | none => simp [batchLoop, successfulItems, htr, hloop, hres]
    | some tword =>
      by_cases ht : tword = ""
      · subst ht
        simp [batchLoop, successfulItems, htr, hloop, hres]
      · simp [batchLoop, successfulItems, htr, hloop, hres, ht]

/-- At most one item per processed word: the successes are never more
numerous than the words. -/
theorem successfulItems_length_le (prov : Provider) (d : String)
    (ws : List String) (c : Cache) :
    (successfulItems prov d ws c).length ≤ ws.length := by
  induction ws generalizing c with
  | nil => simp [successfulItems]
  | cons w rest ih =>
    unfold successfulItems
    cases htr : translate prov w d c with
    | error e => simp
    | ok tr =>
      cases hres : tr.result with
      | none =>
        simp only [hres]
        exact le_trans (ih tr.cache) (Nat.le_succ _)
      | some tword =>
        by_cases ht : tword = ""
        · simp only [hres, if_pos ht]
          exact le_trans (ih tr.cache) (Nat.le_succ _)
        · simp only [hres, if_neg ht, List.length_cons]
          exact Nat.succ_le_succ (ih tr.cache)

/-- Every success is a truthy translation of one of the processed words,
carrying the requested direction. -/
theorem successfulItems_mem (prov : Provider) (d : String)
    (ws : List String) (c : Cache) :
    ∀ it ∈ successfulItems prov d ws c,
      it.input ∈ ws ∧ it.output ≠ "" ∧ it.direction = d := by
  induction ws generalizing c with
  | nil => simp [successfulItems]
  | cons w rest ih =>
    intro it hit
    unfold successfulItems at hit
    revert hit
    cases htr : translate prov w d c with
    | error e => simp
    | ok tr =>
      cases hres : tr.result with
      | none =>
        simp only [hres]
        intro hit
        exact ⟨List.mem_cons_of_mem _ (ih tr.cache it hit).1,
          (ih tr.cache it hit).2.1, (ih tr.cache it hit).2.2⟩
      | some tword =>
        by_cases ht : tword = ""
        · simp only [hres, if_pos ht]
          intro hit
          exact ⟨List.mem_cons_of_mem _ (ih tr.cache it hit).1,
            (ih tr.cache it hit).2.1, (ih tr.cache it hit).2.2⟩
        · simp only [hres, if_neg ht]
          intro hit
          rcases List.mem_cons.mp hit with rfl | hit2
          · exact ⟨List.mem_cons_self _ _, ht, rfl⟩
          · exact ⟨List.mem_cons_of_mem _ (ih tr.cache it hit2).1,
              (ih tr.cache it hit2).2.1, (ih tr.cache it hit2).2.2⟩

/-! ## Claims -/

/-- C1: evaluation at the claimed scenario. A POST to
`/api/translate-english` with word `hello`, an empty cache, and a provider
answering `chibai`, makes one fresh network call yet already answers
`cached: true`, because the handler computes `cached` as
`word.lower() in CACHE['en-to-mizo']` after `translate` has populated the
cache. The claim's `cached: false` on the fresh request does not hold. -/
theorem c1_fresh_success_reports_cached_true :
    api_translate_english (constProvider ["chibai"]) (some "hello") emptyCache =
      .ok ({ status := 200, success := true, error := none, word_out := some "hello",
             translation := some "chibai", direction := some "english-to-mizo",
             cached := some true },
           ⟨[("hello", "chibai")], []⟩, 1) := by
  rfl

/-- C2: once a `(direction, normalized text)` pair has one successful
(truthy) translation, any later `translate` call in the same process with
the same direction and the same lower-cased text — after any sequence of
intervening translate calls — makes no network call and returns the first
result unchanged. -/
theorem c2_second_call_cached_no_network (prov : Provider) (t d : String) (c : Cache)
    (tr : TranslateOutcome) (r : String) (ops : List (String × String)) (t2 : String)
    (htr : translate prov t d c = .ok tr)
    (hres : tr.result = some r) (hr : r ≠ "")
    (ht2 : pyLower t2 = pyLower t) :
    translate prov t2 d (runTranslations prov ops tr.cache) =
      .ok ⟨some r, runTranslations prov ops tr.cache, 0⟩ := by
  obtain ⟨hd, hcached⟩ := translate_ok_truthy_cached prov t d c tr r htr hres hr
  have hpres := runTranslations_preserves prov ops tr.cache d (pyLower t) r hcached
  rw [← ht2] at hpres
  exact translate_cache_hit prov t2 d (runTranslations prov ops tr.cache) r hd hpres

/-- C2 witness: after translating `hello` (en-to-mizo) and an intervening
`zan` (mizo-to-en), translating `HELLO` is a cache hit with zero network
calls returning the first result. -/
theorem c2_witness :
    translate (constProvider ["chibai"]) "HELLO" "en-to-mizo"
        (runTranslations (constProvider ["chibai"]) [("zan", "mizo-to-en")]
          ⟨[("hello", "chibai")], []⟩) =
      .ok ⟨some "chibai",
        runTranslations (constProvider ["chibai"]) [("zan", "mizo-to-en")]
          ⟨[("hello", "chibai")], []⟩, 0⟩ :=
  c2_second_call_cached_no_network (constProvider ["chibai"]) "hello" "en-to-mizo"
    emptyCache ⟨some "chibai", ⟨[("hello", "chibai")], []⟩, 1⟩ "chibai"
    [("zan", "mizo-to-en")] "HELLO" (by rfl) (by rfl) (by decide) (by rfl)

/-- C3 counterexample: the orchestrator's cache key keeps surrounding
whitespace. Translating `" hello "` (as the batch endpoint would pass it,
untrimmed) stores the entry under `" hello "`, and the trimmed lower-cased
key `"hello"` is NOT in the cache afterwards, so a subsequent translate of
`"hello"` misses and makes a fresh network call — refuting the claim that
the key is the input case-folded AND trimmed on every endpoint including
batch. -/
theorem c3_counterexample :
    translate (constProvider ["chibai"]) " hello " "en-to-mizo" emptyCache =
      .ok ⟨some "chibai", ⟨[(" hello ", "chibai")], []⟩, 1⟩ ∧
    lookupDir ⟨[(" hello ", "chibai")], []⟩ "en-to-mizo" "hello" = none ∧
    translate (constProvider ["chibai"]) "hello" "en-to-mizo"
        ⟨[(" hello ", "chibai")], []⟩ =
      .ok ⟨some "chibai", ⟨[(" hello ", "chibai"), ("hello", "chibai")], []⟩, 1⟩ := by
  exact ⟨rfl, rfl, rfl⟩

/-- C3 amended: the cache key is the lower-cased input only — no
whitespace trimming happens in `translate` (the single-word endpoints trim
the word before calling it; the batch endpoint does not). A fresh truthy
translation is stored exactly under `texpyLower t`, and no other
(direction, key) slot changes. -/
theorem c3_amended_key_is_lowercase_only (prov : Provider) (t d : String) (c : Cache)
    (tr : TranslateOutcome) (r : String)
    (htr : translate prov t d c = .ok tr)
    (hres : tr.result = some r) (hr : r ≠ "")
    (hmiss : lookupDir c d (pyLower t) = none) :
    lookupDir tr.cache d (pyLower t) = some r ∧
    ∀ d2 k, ¬(d2 = d ∧ k = pyLower t) → lookupDir tr.cache d2 k = lookupDir c d2 k := by
  obtain ⟨hd, hcached⟩ := translate_ok_truthy_cached prov t d c tr r htr hres hr
  refine ⟨hcached, ?_⟩
  intro d2 k hne
  cases hp : translate_with_google prov t (sourceOf d) (targetOf d) with
  | none =>
    rw [translate_miss_failure prov t d c hd hmiss hp] at htr
    injection htr with htr
    subst htr
    simp at hres
  | some r2 =>
    by_cases hr2 : r2 = ""
    · subst hr2
      rw [translate_miss_empty prov t d c hd hmiss hp] at htr
      injection htr with htr
      subst htr
      simp only at hres
      injection hres with hres
      exact absurd hres.symm hr
    · rw [translate_miss_fresh prov t d c r2 hd hmiss hp hr2] at htr
      injection htr with htr
      subst htr
      exact lookupDir_insertDir_other c d (pyLower t) r2 d2 k hne

/-- C3 amended witness: translating `" hello "` fresh stores under
`" hello "` and leaves the `mizo-to-en` slot for `zan` untouched. -/
theorem c3_amended_witness :
    lookupDir ⟨[(" hello ", "chibai")], []⟩ "en-to-mizo" " hello " = some "chibai" ∧
    lookupDir ⟨[(" hello ", "chibai")], []⟩ "mizo-to-en" "zan" =
      lookupDir emptyCache "mizo-to-en" "zan" :=
  ⟨(c3_amended_key_is_lowercase_only (constProvider ["chibai"]) " hello " "en-to-mizo"
      emptyCache ⟨some "chibai", ⟨[(" hello ", "chibai")], []⟩, 1⟩ "chibai"
      (by rfl) (by rfl) (by decide) (by rfl)).1,
   (c3_amended_key_is_lowercase_only (constProvider ["chibai"]) " hello " "en-to-mizo"
      emptyCache ⟨some "chibai", ⟨[(" hello ", "chibai")], []⟩, 1⟩ "chibai"
      (by rfl) (by rfl) (by decide) (by rfl)).2 "mizo-to-en" "zan" (by decide)⟩

/-- C4: when the provider call fails (non-200 status, malformed payload,
or transport exception) on an uncached word, the client returns the
absence value (it is a total function — nothing propagates past it), the
cache is unchanged, and both single-translate endpoints answer 500 with
`success: false` after their one network call. -/
theorem c4_provider_failure_500_no_cache (prov : Provider) (word : String) (c : Cache)
    (hw : pyStrip word ≠ "")
    (hf1 : providerCallFails (prov (pyStrip word) "lus" "en") = true)
    (hf2 : providerCallFails (prov (pyStrip word) "en" "lus") = true)
    (hm1 : lookupDir c "mizo-to-en" (pyLower (pyStrip word)) = none)
    (hm2 : lookupDir c "en-to-mizo" (pyLower (pyStrip word)) = none) :
    translate_with_google prov (pyStrip word) "lus" "en" = none ∧
    translate_with_google prov (pyStrip word) "en" "lus" = none ∧
    api_translate_mizo prov (some word) c = .ok (failedResp, c, 1) ∧
    api_translate_english prov (some word) c = .ok (failedResp, c, 1) := by
  have h1 := twg_none_of_fails prov (pyStrip word) "lus" "en" hf1
  have h2 := twg_none_of_fails prov (pyStrip word) "en" "lus" hf2
  have ht1 : translate prov (pyStrip word) "mizo-to-en" c = .ok ⟨none, c, 1⟩ :=
    translate_miss_failure prov (pyStrip word) "mizo-to-en" c (Or.inr rfl) hm1 h1
  have ht2 : translate prov (pyStrip word) "en-to-mizo" c = .ok ⟨none, c, 1⟩ :=
    translate_miss_failure prov (pyStrip word) "en-to-mizo" c (Or.inl rfl) hm2 h2
  exact ⟨h1, h2, by simp [api_translate_mizo, hw, ht1],
    by simp [api_translate_english, hw, ht2]⟩

/-- C4 witness: a provider answering 403 on the uncached word `zan`. -/
theorem c4_witness :
    translate_with_google failProvider (pyStrip "zan") "lus" "en" = none ∧
    translate_with_google failProvider (pyStrip "zan") "en" "lus" = none ∧
    api_translate_mizo failProvider (some "zan") emptyCache =
      .ok (failedResp, emptyCache, 1) ∧
    api_translate_english failProvider (some "zan") emptyCache =
      .ok (failedResp, emptyCache, 1) :=
  c4_provider_failure_500_no_cache failProvider "zan" emptyCache
    (by decide) (by rfl) (by rfl) (by rfl) (by rfl)

/-- C5: a batch request with more than 20 words behaves exactly as the
same request restricted to its first 20 words — the remaining items are
ignored without error. -/
theorem c5_batch_processes_first_20 (prov : Provider) (words : List String)
    (direction? : Option String) (c : Cache) (h : 20 < words.length) :
    api_batch_translate prov (some words) direction? c =
      api_batch_translate prov (some (words.take 20)) direction? c := by
  have h1 : words ≠ [] := by
    intro he
    rw [he] at h
    simp at h
  have hl : (words.take 20).length = 20 := by
    rw [List.length_take]
    omega
  have h2 : words.take 20 ≠ [] := by
    intro he
    rw [he] at hl
    simp at hl
  simp [api_batch_translate, h1, h2, List.take_take]

/-- C5 witness: 21 identical words give the same response as their first
20. -/
theorem c5_witness :
    api_batch_translate failProvider (some (List.replicate 21 "a")) none emptyCache =
      api_batch_translate failProvider (some ((List.replicate 21 "a").take 20))
        none emptyCache :=
  c5_batch_processes_first_20 failProvider (List.replicate 21 "a") none emptyCache
    (by decide)

/-- C6: a batch request with a valid direction and a non-empty word list
always answers 200 with `success: true`, and its `translations` array is
EXACTLY the list of items that succeeded (`successfulItems`): every word
whose translation attempt succeeded with a truthy result appears, in
order, with its translation; every word whose attempt failed is omitted;
`count` equals the number of items that succeeded, which is at most the
number of (at most 20) processed words. -/
theorem c6_batch_degrades_gracefully (prov : Provider) (words : List String)
    (d : String) (c : Cache) (hd : validDirection d) (hw : words ≠ []) :
    ∃ c2 n,
      api_batch_translate prov (some words) (some d) c =
        .ok ({ status := 200, success := true,
               translations := some (successfulItems prov d (words.take 20) c),
               count := some (successfulItems prov d (words.take 20) c).length },
             c2, n) ∧
      (successfulItems prov d (words.take 20) c).length ≤ (words.take 20).length ∧
      ∀ it ∈ successfulItems prov d (words.take 20) c,
        it.input ∈ words.take 20 ∧ it.output ≠ "" ∧ it.direction = d := by
  obtain ⟨c2, n, hloop⟩ := batchLoop_eq_successfulItems prov d hd (words.take 20) c
  exact ⟨c2, n, by simp [api_batch_translate, hw, hloop],
    successfulItems_length_le prov d (words.take 20) c,
    successfulItems_mem prov d (words.take 20) c⟩

/-- C6 witness: a provider failing on `ka` but answering `dog` on `ui` —
the batch answer is still a success, and the result list evaluates
concretely to the single succeeded item for `ui` (the failed `ka`
omitted, count 1). -/
theorem c6_witness :
    (∃ c2 n,
      api_batch_translate (partialProvider ["ka"] "dog") (some ["ka", "ui"])
          (some "mizo-to-en") emptyCache =
        .ok ({ status := 200, success := true,
               translations := some (successfulItems (partialProvider ["ka"] "dog")
                 "mizo-to-en" ((["ka", "ui"] : List String).take 20) emptyCache),
               count := some (successfulItems (partialProvider ["ka"] "dog")
                 "mizo-to-en" ((["ka", "ui"] : List String).take 20) emptyCache).length },
             c2, n) ∧
      (successfulItems (partialProvider ["ka"] "dog") "mizo-to-en"
          ((["ka", "ui"] : List String).take 20) emptyCache).length ≤
        ((["ka", "ui"] : List String).take 20).length ∧
      ∀ it ∈ successfulItems (partialProvider ["ka"] "dog") "mizo-to-en"
          ((["ka", "ui"] : List String).take 20) emptyCache,
        it.input ∈ (["ka", "ui"] : List String).take 20 ∧ it.output ≠ "" ∧
          it.direction = "mizo-to-en") ∧
    successfulItems (partialProvider ["ka"] "dog") "mizo-to-en"
        ((["ka", "ui"] : List String).take 20) emptyCache =
      [⟨"ui", "dog", "mizo-to-en"⟩] :=
  ⟨c6_batch_degrades_gracefully (partialProvider ["ka"] "dog") ["ka", "ui"]
    "mizo-to-en" emptyCache (by decide) (by decide), rfl⟩

/-- C7: a missing, empty, or whitespace-only `word` makes both
single-translate endpoints answer 400 with `success: false`, leaving the
cache untouched and making no network call. -/
theorem c7_empty_word_rejected_400 (prov : Provider) (word? : Option String)
    (c : Cache) (h : pyStrip (word?.getD "") = "") :
    api_translate_mizo prov word? c = .ok (noWordResp, c, 0) ∧
    api_translate_english prov word? c = .ok (noWordResp, c, 0) := by
  constructor <;> simp [api_translate_mizo, api_translate_english, h]

/-- C7 witness: a whitespace-only word on a non-empty cache. -/
theorem c7_witness :
    api_translate_mizo failProvider (some "   ") ⟨[("a", "b")], []⟩ =
      .ok (noWordResp, ⟨[("a", "b")], []⟩, 0) ∧
    api_translate_english failProvider (some "   ") ⟨[("a", "b")], []⟩ =
      .ok (noWordResp, ⟨[("a", "b")], []⟩, 0) :=
  c7_empty_word_rejected_400 failProvider (some "   ") ⟨[("a", "b")], []⟩ (by rfl)

/-- C8: clearing the cache empties both directions entirely, `status`
then reports both sizes as zero, and the next `translate` for any key in
either direction misses and makes one fresh network call. -/
theorem c8_clear_cache_resets (c : Cache) (prov : Provider) (t d : String)
    (hd : validDirection d) :
    api_clear_cache c = (⟨"Cache cleared", true⟩, emptyCache) ∧
    api_status (api_clear_cache c).2 =
      { model_loaded := true, cache_size_mizo_to_english := 0,
        cache_size_english_to_mizo := 0, api_key_configured := true,
        status := "online" } ∧
    ∃ tr, translate prov t d (api_clear_cache c).2 = .ok tr ∧ tr.networkCalls = 1 := by
  refine ⟨rfl, rfl, ?_⟩
  have hmiss : lookupDir (api_clear_cache c).2 d (pyLower t) = none := by
    rcases hd with rfl | rfl <;> rfl
  cases hp : translate_with_google prov t (sourceOf d) (targetOf d) with
  | none => exact ⟨_, translate_miss_failure prov t d _ hd hmiss hp, rfl⟩
  | some r =>
    by_cases hr : r = ""
    · subst hr
      exact ⟨_, translate_miss_empty prov t d _ hd hmiss hp, rfl⟩
    · exact ⟨_, translate_miss_fresh prov t d _ r hd hmiss hp hr, rfl⟩

/-- C8 witness: clearing a cache holding one entry per direction. -/
theorem c8_witness :
    api_clear_cache ⟨[("hello", "chibai")], [("zan", "night")]⟩ =
      (⟨"Cache cleared", true⟩, emptyCache) ∧
    api_status (api_clear_cache ⟨[("hello", "chibai")], [("zan", "night")]⟩).2 =
      { model_loaded := true, cache_size_mizo_to_english := 0,
        cache_size_english_to_mizo := 0, api_key_configured := true,
        status := "online" } ∧
    ∃ tr, translate failProvider "zan" "mizo-to-en"
        (api_clear_cache ⟨[("hello", "chibai")], [("zan", "night")]⟩).2 =
      .ok tr ∧ tr.networkCalls = 1 :=
  c8_clear_cache_resets ⟨[("hello", "chibai")], [("zan", "night")]⟩ failProvider "zan"
    "mizo-to-en" (by decide)

/-- C9: cache keys are case-insensitive — after any truthy translation, a
later translate of any text with the same lower-casing (e.g. `Tlawm`
versus `tlawm`) in the same direction is a cache hit returning the same
translation with no network call. -/
theorem c9_cache_key_case_insensitive (prov : Provider) (t1 t2 d : String)
    (c : Cache) (tr : TranslateOutcome) (r : String)
    (htr : translate prov t1 d c = .ok tr)
    (hres : tr.result = some r) (hr : r ≠ "")
    (ht : pyLower t2 = pyLower t1) :
    translate prov t2 d tr.cache = .ok ⟨some r, tr.cache, 0⟩ := by
  obtain ⟨hd, hcached⟩ := translate_ok_truthy_cached prov t1 d c tr r htr hres hr
  rw [← ht] at hcached
  exact translate_cache_hit prov t2 d tr.cache r hd hcached

/-- C9 witness: after translating `Tlawm`, translating `tlawm` hits the
same entry. -/
theorem c9_witness :
    translate (constProvider ["humble"]) "tlawm" "mizo-to-en"
        ⟨[], [("tlawm", "humble")]⟩ =
      .ok ⟨some "humble", ⟨[], [("tlawm", "humble")]⟩, 0⟩ :=
  c9_cache_key_case_insensitive (constProvider ["humble"]) "Tlawm" "tlawm"
    "mizo-to-en" emptyCache ⟨some "humble", ⟨[], [("tlawm", "humble")]⟩, 1⟩ "humble"
    (by rfl) (by rfl) (by decide) (by rfl)

/-- C10: a batch request whose direction is neither `mizo-to-en` nor
`en-to-mizo` hits the `KeyError` of `CACHE[direction]` inside the loop's
first `translate` call; the exception escapes the handler (modelled
`.error ()`) instead of yielding the 400 response reserved for invalid
input. -/
theorem c10_invalid_direction_escapes (prov : Provider) (words : List String)
    (d : String) (c : Cache) (hw : words ≠ [])
    (h1 : d ≠ "en-to-mizo") (h2 : d ≠ "mizo-to-en") :
    api_batch_translate prov (some words) (some d) c = .error () := by
  have hd : dirMap? c d = none := by simp [dirMap?, h1, h2]
  obtain ⟨w, ws, htake⟩ : ∃ w ws, words.take 20 = w :: ws := by
    cases words with
    | nil => exact absurd rfl hw
    | cons w ws => exact ⟨w, ws.take 19, rfl⟩
  have htr : translate prov w d c = .error () := by
    unfold translate
    rw [hd]
  simp [api_batch_translate, hw, htake, batchLoop, htr]

/-- C10 witness: direction `mizo-to-english` (the display name, not a
cache key) makes the batch request escape with the uncaught error. -/
theorem c10_witness :
    api_batch_translate failProvider (some ["ka"]) (some "mizo-to-english")
      emptyCache = .error () :=
  c10_invalid_direction_escapes failProvider ["ka"] "mizo-to-english" emptyCache
    (by decide) (by decide) (by decide)

end TranslationServer
